import Mathlib

/-!
# Verification of the awskit request dispatch, verification and S3 helpers

Shallow embedding of the Go sources of `olapie/awskit`:
* `lambda/lambda.go` and `lambdahttp/lambda.go` — the Lambda routers
  (`Router.Handle`), the request verifier middleware
  (`CreateRequestVerifier`) and the canonical signing-string builders
  (`getMessageHashForSigning`);
* the S3 bucket wrapper (`Exists`, `BatchDelete`).

External collaborators (the router match, the ECDSA verifier, the hash
functions, the S3 backend) are passed in as explicit parameters; helpers
from the `sugar` HTTP library and the repo's `Error` response builder are
modelled from the spec where their code is not part of the sources.
-/

set_option autoImplicit false

namespace Awskit

/-- Go `map[string]string` of header names to values, modelled as an
association list (Go map keys are unique; lookups below take the first
match). -/
abbrev Headers := List (String × String)

/-- ASCII lower-casing of a character, as its code point. -/
def lowerNat (c : Char) : Nat :=
  if 65 ≤ c.toNat ∧ c.toNat ≤ 90 then c.toNat + 32 else c.toNat

/-- ASCII case-insensitive string comparison. -/
def eqIgnoreCase (a b : String) : Bool :=
  a.data.map lowerNat == b.data.map lowerNat

/-- Modelled from the spec: `httpx.GetHeader` / `xhttp.GetHeader` from the
external `sugar` library — case-insensitive header lookup ("mapping of
header name → value (case-insensitive lookup required)"), returning the Go
zero value `""` when the header is absent. -/
def getHeader (hs : Headers) (key : String) : String :=
  match hs.find? (fun p => eqIgnoreCase p.1 key) with
  | some p => p.2
  | none => ""

/-- Header-name constants used across the two packages.  The exact wire
names live in the external `sugar` library; only their identity and
pairwise distinctness matter here. -/
def keyContentType : String := "Content-Type"

def keyAppID : String := "X-App-Id"

def keyClientID : String := "X-Client-Id"

def keyTimestamp : String := "X-Timestamp"

def keyAuthorization : String := "Authorization"

def keyTraceID : String := "X-Trace-Id"

def keySignature : String := "X-Signature"

/-- `events.APIGatewayV2HTTPRequest`, restricted to the fields the sources
read.  `path` is `RequestContext.HTTP.Path` and `rawPath` is the top-level
`RawPath` field — the routers match on `rawPath` while the signing string
uses `path`. -/
structure Request where
  method : String
  path : String
  rawPath : String
  rawQueryString : String
  headers : Headers
  body : String
  sourceIP : String
  userAgent : String
deriving DecidableEq, Repr

/-- `events.APIGatewayV2HTTPResponse`, restricted to the fields the sources
touch.  `headers = none` models a nil Go map. -/
structure Response where
  statusCode : Nat
  headers : Option Headers
  body : String
deriving DecidableEq, Repr

/-- Error taxonomy of the spec (§7): 400-class for malformed or
unauthenticated requests, 404 for no matching route, 501 for a handler
producing nothing, 500-class for recovered panics. -/
inductive ErrKind where
  | badRequest
  | notAcceptable
  | notFound
  | notImplemented
  | internal
deriving DecidableEq, Repr

/-- HTTP status code rendered for each error kind (spec §6/§7). -/
def ErrKind.status : ErrKind → Nat
  | .badRequest => 400
  | .notAcceptable => 406
  | .notFound => 404
  | .notImplemented => 501
  | .internal => 500

/-- A structured error: kind plus message, as produced by the `errorx` /
`xerror` constructors and by wrapping a plain Go `error` (kind
`internal`). -/
structure Err where
  kind : ErrKind
  msg : String
deriving DecidableEq, Repr

/-- Modelled from the spec: the packages' `Error` response builder (its Go
source is not among the given files).  "Every terminal error state is
rendered as a structured response with an HTTP-appropriate status code";
the body carries the error message.  It receives only the error value, so
it cannot set a trace header, and its header map is the Go zero value
`nil`. -/
def errorResp (e : Err) : Response :=
  { statusCode := e.kind.status, headers := none, body := e.msg }

/-- Modelled from the spec: `httpx.SetTraceID` / `xhttp.SetTraceID` from
the external `sugar` library — a Go map assignment of the trace-id response
header ("a trace-id header is always present on the response").  Map
assignment replaces any existing entry for the key. -/
def setTraceID (hs : Headers) (tid : String) : Headers :=
  (keyTraceID, tid) :: hs.filter (fun p => p.1 ≠ keyTraceID)

/-- The tail of the deferred function in `Router.Handle` (both packages),
reached on every non-panicking path: replace a nil header map by an empty
one, then set the trace-id header. -/
def finalize (tid : String) (resp : Response) : Response :=
  { resp with headers := some (setTraceID (resp.headers.getD []) tid) }

/-- Outcome of invoking the matched handler chain on a request: a normal
return (possibly of a nil response) or a Go panic carrying a value whose
`fmt.Sprint` string representation is recorded. -/
inductive HandlerResult where
  | ret (resp : Option Response)
  | panic (msg : String)
deriving DecidableEq, Repr

/-- The router match `r.Match(method, rawPath)` together with the matched
endpoint's handler chain, modelled as one function from (method, rawPath)
to the optional chain behaviour. -/
abbrev MatchFn := String → String → Option (Request → HandlerResult)

namespace Lambda

/-- `lambda.Router.Handle`.  The deferred function recovers from a panic
by overwriting the named result with `Error(errors.New(fmt.Sprint(msg)))`
and returning early — on that path the nil-header fix and `SetTraceID`
are skipped.  On normal paths: a nil matched endpoint yields
`Error(errorx.NotFound("endpoint not found"))`, a nil handler response
yields `Error(errorx.NotImplemented("no response from handler"))`, and the
deferred function then ensures a header map and sets the trace-id
header. -/
def handle (matchFn : MatchFn) (traceID : String) (request : Request) :
    Response :=
  match matchFn request.method request.rawPath with
  | some chain =>
    match chain request with
    | .panic v => errorResp { kind := .internal, msg := v }
    | .ret (some resp) => finalize traceID resp
    | .ret none =>
        finalize traceID
          (errorResp { kind := .notImplemented, msg := "no response from handler" })
  | none =>
      finalize traceID
        (errorResp { kind := .notFound, msg := "endpoint not found" })

end Lambda

namespace LambdaHTTP

/-- `lambdahttp.Router.Handle`.  Identical control flow to
`Lambda.handle`; only the not-found message differs
(`xerror.NotFound("endpoint not found: %s %s", method, rawPath)`). -/
def handle (matchFn : MatchFn) (traceID : String) (request : Request) :
    Response :=
  match matchFn request.method request.rawPath with
  | some chain =>
    match chain request with
    | .panic v => errorResp { kind := .internal, msg := v }
    | .ret (some resp) => finalize traceID resp
    | .ret none =>
        finalize traceID
          (errorResp { kind := .notImplemented, msg := "no response from handler" })
  | none =>
      finalize traceID
        (errorResp { kind := .notFound,
                     msg := "endpoint not found: " ++ request.method ++ " " ++ request.rawPath })

end LambdaHTTP

/-- Parse a digit string into a natural number; `none` on a non-digit. -/
def parseDigitsAux : List Char → Nat → Option Nat
  | [], acc => some acc
  | c :: rest, acc =>
    if 48 ≤ c.toNat ∧ c.toNat ≤ 57 then
      parseDigitsAux rest (acc * 10 + (c.toNat - 48))
    else none

/-- Parse a decimal integer (an optional minus sign and digits); `none`
when empty or malformed. -/
def parseTimestamp (s : String) : Option Int :=
  match s.data with
  | [] => none
  | '-' :: rest =>
    if rest = [] then none
    else (parseDigitsAux rest 0).map (fun n => -(n : Int))
  | cs => (parseDigitsAux cs 0).map (fun n => (n : Int))

/-- Modelled from the spec: `httpx.CheckTimestamp` / `xhttp.CheckTimestamp`
from the external `sugar` library — "parse a required timestamp header;
fail with `Unacceptable` if missing, malformed, or outside the allowed
clock-skew window" (spec §4.1 step 1).  `now` is the verifier's clock and
`window` the configured skew tolerance, both in seconds. -/
def checkTimestamp (now : Int) (window : Nat) (hs : Headers) : Option Err :=
  match getHeader hs keyTimestamp with
  | "" => some { kind := .notAcceptable, msg := "missing timestamp" }
  | s =>
    match parseTimestamp s with
    | none => some { kind := .notAcceptable, msg := "malformed timestamp" }
    | some t =>
      if (now - t).natAbs ≤ window then none
      else some { kind := .notAcceptable, msg := "timestamp out of range" }

/-- Value of a hexadecimal digit, or `none` for any other character. -/
def hexDigit (c : Char) : Option Nat :=
  if '0' ≤ c ∧ c ≤ '9' then some (c.toNat - '0'.toNat)
  else if 'a' ≤ c ∧ c ≤ 'f' then some (c.toNat - 'a'.toNat + 10)
  else if 'A' ≤ c ∧ c ≤ 'F' then some (c.toNat - 'A'.toNat + 10)
  else none

/-- Decode a hex string (as a character list) into bytes; `none` when the
length is odd or a character is not a hex digit. -/
def decodeHexChars : List Char → Option (List Nat)
  | [] => some []
  | [_] => none
  | c1 :: c2 :: rest =>
    match hexDigit c1, hexDigit c2, decodeHexChars rest with
    | some h, some l, some bs => some ((16 * h + l) :: bs)
    | _, _, _ => none

/-- Modelled from the spec: `httpx.DecodeSign` / `xhttp.DecodeSign` from
the external `sugar` library — "parse a required signature header (binary,
commonly base64/hex-encoded in transit) into raw signature bytes; fail
with `BadRequest`/`Unacceptable` if absent or malformed" (spec §4.1
step 2; hex transport encoding chosen for the model). -/
def decodeSign (hs : Headers) : Except Err (List Nat) :=
  match getHeader hs keySignature with
  | "" => .error { kind := .badRequest, msg := "missing signature" }
  | s =>
    match decodeHexChars s.toList with
    | none => .error { kind := .badRequest, msg := "malformed signature" }
    | some bs => .ok bs

namespace Lambda

/-- `lambda.getMessageHashForSigning`: concatenate method, path, raw query
string, then the content-type, app-id, client-id, timestamp and
authorization header values, and hash with SHA-256.  The external SHA-256
function is a parameter with a 256-bit codomain. -/
def getMessageHashForSigning (sha256 : String → Fin (2 ^ 256))
    (req : Request) : Fin (2 ^ 256) :=
  sha256 (req.method ++ req.path ++ req.rawQueryString
    ++ getHeader req.headers keyContentType
    ++ getHeader req.headers keyAppID
    ++ getHeader req.headers keyClientID
    ++ getHeader req.headers keyTimestamp
    ++ getHeader req.headers keyAuthorization)

/-- `lambda.CreateRequestVerifier`: timestamp freshness check, signature
decode, digest recomputation, ECDSA verification; forward to the next
handler only on success.  `ecdsa.VerifyASN1` and the public key are
external and passed in as parameters. -/
def createRequestVerifier {K : Type} (sha256 : String → Fin (2 ^ 256))
    (verifyASN1 : K → Fin (2 ^ 256) → List Nat → Bool)
    (now : Int) (window : Nat) (pubKey : K)
    (next : Request → Response) (request : Request) : Response :=
  match checkTimestamp now window request.headers with
  | some e => errorResp e
  | none =>
    match decodeSign request.headers with
    | .error e => errorResp e
    | .ok sign =>
      if verifyASN1 pubKey (getMessageHashForSigning sha256 request) sign then
        next request
      else errorResp { kind := .notAcceptable, msg := "invalid signature" }

end Lambda

namespace LambdaHTTP

/-- `lambdahttp.getMessageHashForSigning`: concatenate method, path, raw
query string, then the trace-id and timestamp header values, and hash with
MD5.  The external MD5 function is a parameter with a 128-bit codomain. -/
def getMessageHashForSigning (md5 : String → Fin (2 ^ 128))
    (req : Request) : Fin (2 ^ 128) :=
  md5 (req.method ++ req.path ++ req.rawQueryString
    ++ getHeader req.headers keyTraceID
    ++ getHeader req.headers keyTimestamp)

/-- `lambdahttp.CreateRequestVerifier`: same control flow as the `lambda`
variant, with the MD5-based digest. -/
def createRequestVerifier {K : Type} (md5 : String → Fin (2 ^ 128))
    (verifyASN1 : K → Fin (2 ^ 128) → List Nat → Bool)
    (now : Int) (window : Nat) (pubKey : K)
    (next : Request → Response) (request : Request) : Response :=
  match checkTimestamp now window request.headers with
  | some e => errorResp e
  | none =>
    match decodeSign request.headers with
    | .error e => errorResp e
    | .ok sign =>
      if verifyASN1 pubKey (getMessageHashForSigning md5 request) sign then
        next request
      else errorResp { kind := .notAcceptable, msg := "invalid signature" }

end LambdaHTTP

namespace S3Bucket

/-- Failure of an S3 `HeadObject` call after `errors.Cause` unwrapping: a
`smithy.APIError` with its error code, or any other (transport) error. -/
inductive HeadErr where
  | api (code : String) (msg : String)
  | other (msg : String)
deriving DecidableEq, Repr

/-- `S3Bucket.Exists` (Go name `Exists`; renamed to avoid clashing with
Lean's `Exists`).  The backend `HeadObject` outcome is the input: success
means the object exists; a `smithy.APIError` whose code is `"NotFound"`
means the object is absent; anything else is returned as the error. -/
def existsObject (headResult : Except HeadErr Unit) : Bool × Option HeadErr :=
  match headResult with
  | .ok _ => (true, none)
  | .error e =>
    match e with
    | .api code _ => if code = "NotFound" then (false, none) else (false, some e)
    | .other _ => (false, some e)

/-- Errors surfaced by `BatchDelete`: a failed `DeleteObjects` call, the
"some ids cannot be deleted" enumeration, or a failed not-exists wait.
The Go error message enumerates map keys in arbitrary order; the model
fixes one canonical order, so the enumeration is read as a set. -/
inductive BatchDeleteErr where
  | deleteObjectsFailed (msg : String)
  | someIdsNotDeleted (ids : List String)
  | waitFailed (msg : String)
deriving DecidableEq, Repr

/-- The S3 backend calls `BatchDelete` makes: `DeleteObjects` returns the
keys the service confirms deleted, and the object-not-exists waiter takes
a key and a bound in seconds. -/
structure Backend where
  deleteObjects : List String → Except String (List String)
  waitNotExists : String → Nat → Except String Unit

/-- The ids remaining in the Go `idSet` after the keys confirmed deleted
are removed — computed only when the confirmed count differs from
`len(ids)`, else empty. -/
def remainingIds (ids deleted : List String) : List String :=
  if deleted.length ≠ ids.length then
    ids.dedup.filter (fun x => !deleted.contains x)
  else []

/-- `S3Bucket.BatchDelete`.  Returns the result together with the trace of
waiter calls made (key, bound in seconds).  Empty input: no-op.  Backend
failure: wrapped error.  Zero confirmed deletions: success with no wait.
When the confirmed count differs from `len(ids)`, the set of ids minus the
confirmed keys must be empty, else it is enumerated in an error.
Otherwise wait (bounded by five seconds) for the absence of `ids[0]`. -/
def batchDelete (be : Backend) (ids : List String) :
    Except BatchDeleteErr Unit × List (String × Nat) :=
  match ids with
  | [] => (.ok (), [])
  | id0 :: _ =>
    match be.deleteObjects ids with
    | .error e => (.error (.deleteObjectsFailed e), [])
    | .ok deleted =>
      if deleted.length = 0 then (.ok (), [])
      else if remainingIds ids deleted ≠ [] then
        (.error (.someIdsNotDeleted (remainingIds ids deleted)), [])
      else
        match be.waitNotExists id0 5 with
        | .error e => (.error (.waitFailed e), [(id0, 5)])
        | .ok _ => (.ok (), [(id0, 5)])

end S3Bucket

/-- A concrete request used to instantiate the theorems below. -/
def sampleRequest : Request :=
  { method := "GET", path := "/items/42", rawPath := "/items/42",
    rawQueryString := "", headers := [(keyTimestamp, "1000")], body := "",
    sourceIP := "203.0.113.7", userAgent := "client/1.0" }

/-- Trivial stand-in for the external SHA-256 function, used to
instantiate the verification theorems at concrete inputs. -/
def zeroHash256 : String → Fin (2 ^ 256) := fun _ => ⟨0, by positivity⟩

/-- Trivial stand-in for the external MD5 function, used to instantiate
the verification theorems at concrete inputs. -/
def zeroHash128 : String → Fin (2 ^ 128) := fun _ => ⟨0, by positivity⟩

/-- A concrete downstream handler used to instantiate the verifier
theorems. -/
def sampleNext : Request → Response :=
  fun _ => { statusCode := 200, headers := none, body := "ok" }

end Awskit

namespace Awskit

/-- **C1** (code-bug evidence): on the panic-recovery path the deferred
function in `Router.Handle` overwrites the response and returns before the
nil-header fix and `SetTraceID` run, so the caller receives a response
with a nil header mapping and no trace-id header — in both packages —
contradicting the claimed invariant. -/
theorem c1_panicPath_returns_nil_headers :
    Lambda.handle (fun _ _ => some (fun _ => .panic "runtime error")) "trace-1"
        sampleRequest
      = { statusCode := 500, headers := none, body := "runtime error" }
    ∧ LambdaHTTP.handle (fun _ _ => some (fun _ => .panic "runtime error")) "trace-1"
        sampleRequest
      = { statusCode := 500, headers := none, body := "runtime error" } :=
  ⟨rfl, rfl⟩

/-- **C2**: when the matched handler chain panics, `Router.Handle` (both
packages) catches the panic and returns a 500 `Internal` error response
whose body is the panic value's string representation; being a total
function of its inputs, `handle` never propagates the panic. -/
theorem c2_panic_recovered_as_internal (matchFn : MatchFn) (tid : String)
    (r : Request) (chain : Request → HandlerResult) (v : String)
    (hm : matchFn r.method r.rawPath = some chain)
    (hp : chain r = .panic v) :
    Lambda.handle matchFn tid r = errorResp { kind := .internal, msg := v }
    ∧ (Lambda.handle matchFn tid r).statusCode = 500
    ∧ (Lambda.handle matchFn tid r).body = v
    ∧ LambdaHTTP.handle matchFn tid r = errorResp { kind := .internal, msg := v }
    ∧ (LambdaHTTP.handle matchFn tid r).statusCode = 500
    ∧ (LambdaHTTP.handle matchFn tid r).body = v := by
  unfold Lambda.handle LambdaHTTP.handle
  simp only [hm, hp]
  simp [errorResp, ErrKind.status]

/-- Closed instance of `c2_panic_recovered_as_internal` at a concrete
panicking chain. -/
theorem c2_witness :
    Lambda.handle (fun _ _ => some (fun _ => .panic "boom")) "t" sampleRequest
      = errorResp { kind := .internal, msg := "boom" } :=
  (c2_panic_recovered_as_internal (fun _ _ => some (fun _ => .panic "boom")) "t"
    sampleRequest (fun _ => .panic "boom") "boom" rfl rfl).1

/-- **C7**: an unmatched (method, rawPath) pair yields the finalized
`NotFound` response (status 404) in both packages, and the result does not
depend on any handler chain in the routing table: any other table that
also fails to match this pair produces the identical response. -/
theorem c7_unmatched_notFound (matchFn : MatchFn) (tid : String) (r : Request)
    (hm : matchFn r.method r.rawPath = none) :
    Lambda.handle matchFn tid r
      = finalize tid (errorResp { kind := .notFound, msg := "endpoint not found" })
    ∧ (Lambda.handle matchFn tid r).statusCode = 404
    ∧ (∀ m2 : MatchFn, m2 r.method r.rawPath = none →
        Lambda.handle m2 tid r = Lambda.handle matchFn tid r)
    ∧ LambdaHTTP.handle matchFn tid r
      = finalize tid (errorResp { kind := .notFound, msg := "endpoint not found: " ++ r.method ++ " " ++ r.rawPath })
    ∧ (LambdaHTTP.handle matchFn tid r).statusCode = 404
    ∧ (∀ m2 : MatchFn, m2 r.method r.rawPath = none →
        LambdaHTTP.handle m2 tid r = LambdaHTTP.handle matchFn tid r) := by
  have hL : Lambda.handle matchFn tid r
      = finalize tid (errorResp { kind := .notFound, msg := "endpoint not found" }) := by
    unfold Lambda.handle
    rw [hm]
  have hH : LambdaHTTP.handle matchFn tid r
      = finalize tid (errorResp { kind := .notFound, msg := "endpoint not found: " ++ r.method ++ " " ++ r.rawPath }) := by
    unfold LambdaHTTP.handle
    rw [hm]
  refine ⟨hL, by rw [hL]; rfl, ?_, hH, by rw [hH]; rfl, ?_⟩
  · intro m2 hm2
    rw [hL]
    unfold Lambda.handle
    rw [hm2]
  · intro m2 hm2
    rw [hH]
    unfold LambdaHTTP.handle
    rw [hm2]

/-- Closed instance of `c7_unmatched_notFound` at the empty routing
table. -/
theorem c7_witness :
    (Lambda.handle (fun _ _ => none) "t" sampleRequest).statusCode = 404 :=
  (c7_unmatched_notFound (fun _ _ => none) "t" sampleRequest rfl).2.1

/-- **C8**: when the matched handler chain returns a nil response,
`Router.Handle` (both packages) returns the finalized `NotImplemented`
error response (status 501) rather than nil. -/
theorem c8_nilResponse_notImplemented (matchFn : MatchFn) (tid : String)
    (r : Request) (chain : Request → HandlerResult)
    (hm : matchFn r.method r.rawPath = some chain)
    (hn : chain r = .ret none) :
    Lambda.handle matchFn tid r
      = finalize tid
          (errorResp { kind := .notImplemented, msg := "no response from handler" })
    ∧ (Lambda.handle matchFn tid r).statusCode = 501
    ∧ LambdaHTTP.handle matchFn tid r
      = finalize tid
          (errorResp { kind := .notImplemented, msg := "no response from handler" })
    ∧ (LambdaHTTP.handle matchFn tid r).statusCode = 501 := by
  have hL : Lambda.handle matchFn tid r
      = finalize tid (errorResp { kind := .notImplemented, msg := "no response from handler" }) := by
    unfold Lambda.handle
    simp only [hm]
    rw [hn]
  have hH : LambdaHTTP.handle matchFn tid r
      = finalize tid (errorResp { kind := .notImplemented, msg := "no response from handler" }) := by
    unfold LambdaHTTP.handle
    simp only [hm]
    rw [hn]
  exact ⟨hL, by rw [hL]; rfl, hH, by rw [hH]; rfl⟩

/-- Closed instance of `c8_nilResponse_notImplemented` at a concrete
chain returning no response. -/
theorem c8_witness :
    (Lambda.handle (fun _ _ => some (fun _ => .ret none)) "t"
        sampleRequest).statusCode = 501 :=
  (c8_nilResponse_notImplemented (fun _ _ => some (fun _ => .ret none)) "t"
    sampleRequest (fun _ => .ret none) rfl rfl).2.1

/-- **C9**: `S3Bucket.Exists` returns `(false, nil)` exactly when the
`HeadObject` call failed with an API error whose code is `"NotFound"`;
it returns `(true, nil)` exactly when `HeadObject` succeeded; and every
other failure is surfaced as `(false, err)` with the non-nil error. -/
theorem c9_existsObject_classification (r : Except S3Bucket.HeadErr Unit) :
    (S3Bucket.existsObject r = (false, none)
      ↔ ∃ m, r = .error (.api "NotFound" m))
    ∧ (S3Bucket.existsObject r = (true, none) ↔ r = .ok ())
    ∧ (∀ e, r = .error e → (∀ m, e ≠ S3Bucket.HeadErr.api "NotFound" m) →
        S3Bucket.existsObject r = (false, some e)) := by
  refine ⟨?_, ?_, ?_⟩
  · cases r with
    | ok u => cases u; simp [S3Bucket.existsObject]
    | error e =>
      cases e with
      | api code m =>
        by_cases hc : code = "NotFound"
        · subst hc
          simp [S3Bucket.existsObject]
        · simp [S3Bucket.existsObject, hc]
      | other m => simp [S3Bucket.existsObject]
  · cases r with
    | ok u => cases u; simp [S3Bucket.existsObject]
    | error e =>
      cases e with
      | api code m =>
        by_cases hc : code = "NotFound" <;> simp [S3Bucket.existsObject, hc]
      | other m => simp [S3Bucket.existsObject]
  · intro e he hne
    cases r with
    | ok u => simp at he
    | error e2 =>
      injection he with h
      subst h
      cases e2 with
      | api code m =>
        by_cases hc : code = "NotFound"
        · subst hc
          exact absurd rfl (hne m)
        · simp [S3Bucket.existsObject, hc]
      | other m => simp [S3Bucket.existsObject]

/-- Closed instance of `c9_existsObject_classification` at a `NotFound`
API error. -/
theorem c9_witness :
    S3Bucket.existsObject (.error (.api "NotFound" "no such key"))
      = (false, none) :=
  (c9_existsObject_classification (.error (.api "NotFound" "no such key"))).1.mpr
    ⟨"no such key", rfl⟩

/-- Every error produced by the modelled `DecodeSign` is a `BadRequest`
(client) error. -/
theorem decodeSign_error_badRequest (hs : Headers) (e : Err)
    (h : decodeSign hs = Except.error e) : e.kind = ErrKind.badRequest := by
  unfold decodeSign at h
  split at h
  · cases h
    rfl
  · split at h
    · cases h
      rfl
    · simp at h

/-- Every error produced by the modelled `CheckTimestamp` is a
`NotAcceptable` (unacceptable) error. -/
theorem checkTimestamp_error_notAcceptable (now : Int) (window : Nat)
    (hs : Headers) (e : Err) (h : checkTimestamp now window hs = some e) :
    e.kind = ErrKind.notAcceptable := by
  unfold checkTimestamp at h
  split at h
  · cases h
    rfl
  · split at h
    · cases h
      rfl
    · split at h
      · simp at h
      · cases h
        rfl

/-- The modelled `CheckTimestamp` reads only the timestamp header. -/
theorem checkTimestamp_congr (now : Int) (window : Nat) (hs1 hs2 : Headers)
    (h : getHeader hs1 keyTimestamp = getHeader hs2 keyTimestamp) :
    checkTimestamp now window hs1 = checkTimestamp now window hs2 := by
  unfold checkTimestamp
  rw [h]

/-- **C3**: under each canonicalization profile, the digest is a function
of exactly the profile's fields: two requests agreeing on HTTP method,
path, raw query string and the profile's header values (content-type,
app-id, client-id, timestamp, authorization with the 256-bit SHA-256
profile of `lambda`; trace-id, timestamp with the 128-bit MD5 profile of
`lambdahttp`) produce bit-identical digests, for every choice of the
external hash function. -/
theorem c3_canonical_digest_agreement (sha256 : String → Fin (2 ^ 256))
    (md5 : String → Fin (2 ^ 128)) (r1 r2 : Request) :
    ((r1.method = r2.method ∧ r1.path = r2.path
      ∧ r1.rawQueryString = r2.rawQueryString
      ∧ getHeader r1.headers keyContentType = getHeader r2.headers keyContentType
      ∧ getHeader r1.headers keyAppID = getHeader r2.headers keyAppID
      ∧ getHeader r1.headers keyClientID = getHeader r2.headers keyClientID
      ∧ getHeader r1.headers keyTimestamp = getHeader r2.headers keyTimestamp
      ∧ getHeader r1.headers keyAuthorization = getHeader r2.headers keyAuthorization) →
      Lambda.getMessageHashForSigning sha256 r1 = Lambda.getMessageHashForSigning sha256 r2)
    ∧ ((r1.method = r2.method ∧ r1.path = r2.path
      ∧ r1.rawQueryString = r2.rawQueryString
      ∧ getHeader r1.headers keyTraceID = getHeader r2.headers keyTraceID
      ∧ getHeader r1.headers keyTimestamp = getHeader r2.headers keyTimestamp) →
      LambdaHTTP.getMessageHashForSigning md5 r1 = LambdaHTTP.getMessageHashForSigning md5 r2) := by
  constructor
  · rintro ⟨h1, h2, h3, h4, h5, h6, h7, h8⟩
    unfold Lambda.getMessageHashForSigning
    rw [h1, h2, h3, h4, h5, h6, h7, h8]
  · rintro ⟨h1, h2, h3, h4, h5⟩
    unfold LambdaHTTP.getMessageHashForSigning
    rw [h1, h2, h3, h4, h5]

/-- Closed instance of `c3_canonical_digest_agreement`: two requests that
differ only in the body agree on every canonicalized field, hence on the
digest. -/
theorem c3_witness :
    Lambda.getMessageHashForSigning zeroHash256 sampleRequest
      = Lambda.getMessageHashForSigning zeroHash256 { sampleRequest with body := "other" } :=
  (c3_canonical_digest_agreement zeroHash256 zeroHash128 sampleRequest
    { sampleRequest with body := "other" }).1
    ⟨rfl, rfl, rfl, rfl, rfl, rfl, rfl, rfl⟩

/-- **C4**: the request verifier (both packages) is total and lands in
exactly one of four cases for every request and public key: the freshness
check fails and its error is returned; the signature header cannot be
decoded and a `BadRequest` (400, client-error) response is returned; the
decoded signature fails ECDSA verification and the `NotAcceptable`
response is returned; or verification succeeds and control is forwarded
to the next handler.  In each rejection case the response is independent
of the next handler, so only a verifying signature forwards control. -/
theorem c4_verifier_totality {K : Type} (sha256 : String → Fin (2 ^ 256))
    (md5 : String → Fin (2 ^ 128))
    (verify256 : K → Fin (2 ^ 256) → List Nat → Bool)
    (verify128 : K → Fin (2 ^ 128) → List Nat → Bool)
    (now : Int) (window : Nat) (pubKey : K)
    (next : Request → Response) (r : Request) :
    ((∃ e, checkTimestamp now window r.headers = some e
        ∧ ∀ n2 : Request → Response,
            Lambda.createRequestVerifier sha256 verify256 now window pubKey n2 r = errorResp e)
      ∨ (∃ e, checkTimestamp now window r.headers = none
        ∧ decodeSign r.headers = .error e
        ∧ e.kind = ErrKind.badRequest
        ∧ (errorResp e).statusCode = 400
        ∧ ∀ n2 : Request → Response,
            Lambda.createRequestVerifier sha256 verify256 now window pubKey n2 r = errorResp e)
      ∨ (∃ sign, checkTimestamp now window r.headers = none
        ∧ decodeSign r.headers = .ok sign
        ∧ verify256 pubKey (Lambda.getMessageHashForSigning sha256 r) sign = false
        ∧ ∀ n2 : Request → Response,
            Lambda.createRequestVerifier sha256 verify256 now window pubKey n2 r
              = errorResp { kind := .notAcceptable, msg := "invalid signature" })
      ∨ (∃ sign, checkTimestamp now window r.headers = none
        ∧ decodeSign r.headers = .ok sign
        ∧ verify256 pubKey (Lambda.getMessageHashForSigning sha256 r) sign = true
        ∧ Lambda.createRequestVerifier sha256 verify256 now window pubKey next r = next r))
    ∧ ((∃ e, checkTimestamp now window r.headers = some e
        ∧ ∀ n2 : Request → Response,
            LambdaHTTP.createRequestVerifier md5 verify128 now window pubKey n2 r = errorResp e)
      ∨ (∃ e, checkTimestamp now window r.headers = none
        ∧ decodeSign r.headers = .error e
        ∧ e.kind = ErrKind.badRequest
        ∧ (errorResp e).statusCode = 400
        ∧ ∀ n2 : Request → Response,
            LambdaHTTP.createRequestVerifier md5 verify128 now window pubKey n2 r = errorResp e)
      ∨ (∃ sign, checkTimestamp now window r.headers = none
        ∧ decodeSign r.headers = .ok sign
        ∧ verify128 pubKey (LambdaHTTP.getMessageHashForSigning md5 r) sign = false
        ∧ ∀ n2 : Request → Response,
            LambdaHTTP.createRequestVerifier md5 verify128 now window pubKey n2 r
              = errorResp { kind := .notAcceptable, msg := "invalid signature" })
      ∨ (∃ sign, checkTimestamp now window r.headers = none
        ∧ decodeSign r.headers = .ok sign
        ∧ verify128 pubKey (LambdaHTTP.getMessageHashForSigning md5 r) sign = true
        ∧ LambdaHTTP.createRequestVerifier md5 verify128 now window pubKey next r = next r)) := by
  constructor
  · rcases hts : checkTimestamp now window r.headers with _ | e
    · rcases hds : decodeSign r.headers with e | sign
      · refine Or.inr (Or.inl ⟨e, rfl, rfl, decodeSign_error_badRequest _ _ hds, ?_, ?_⟩)
        · simp [errorResp, decodeSign_error_badRequest _ _ hds, ErrKind.status]
        · intro n2
          simp [Lambda.createRequestVerifier, hts, hds]
      · rcases hv : verify256 pubKey (Lambda.getMessageHashForSigning sha256 r) sign with _ | _
        · refine Or.inr (Or.inr (Or.inl ⟨sign, rfl, rfl, hv, ?_⟩))
          intro n2
          simp [Lambda.createRequestVerifier, hts, hds, hv]
        · refine Or.inr (Or.inr (Or.inr ⟨sign, rfl, rfl, hv, ?_⟩))
          simp [Lambda.createRequestVerifier, hts, hds, hv]
    · refine Or.inl ⟨e, rfl, ?_⟩
      intro n2
      simp [Lambda.createRequestVerifier, hts]
  · rcases hts : checkTimestamp now window r.headers with _ | e
    · rcases hds : decodeSign r.headers with e | sign
      · refine Or.inr (Or.inl ⟨e, rfl, rfl, decodeSign_error_badRequest _ _ hds, ?_, ?_⟩)
        · simp [errorResp, decodeSign_error_badRequest _ _ hds, ErrKind.status]
        · intro n2
          simp [LambdaHTTP.createRequestVerifier, hts, hds]
      · rcases hv : verify128 pubKey (LambdaHTTP.getMessageHashForSigning md5 r) sign with _ | _
        · refine Or.inr (Or.inr (Or.inl ⟨sign, rfl, rfl, hv, ?_⟩))
          intro n2
          simp [LambdaHTTP.createRequestVerifier, hts, hds, hv]
        · refine Or.inr (Or.inr (Or.inr ⟨sign, rfl, rfl, hv, ?_⟩))
          simp [LambdaHTTP.createRequestVerifier, hts, hds, hv]
    · refine Or.inl ⟨e, rfl, ?_⟩
      intro n2
      simp [LambdaHTTP.createRequestVerifier, hts]

/-- **C5**: when the timestamp header is missing, malformed or outside the
allowed window (i.e. `CheckTimestamp` fails), the verifier (both packages)
returns that `NotAcceptable` (406) error response, and the returned
response is the same for every headers mapping agreeing on the timestamp
header — in particular it does not depend on the signature header's
presence, decodability or validity. -/
theorem c5_freshness_rejection_independent_of_signature {K : Type}
    (sha256 : String → Fin (2 ^ 256)) (md5 : String → Fin (2 ^ 128))
    (verify256 : K → Fin (2 ^ 256) → List Nat → Bool)
    (verify128 : K → Fin (2 ^ 128) → List Nat → Bool)
    (now : Int) (window : Nat) (pubKey : K)
    (next : Request → Response) (r : Request) (e : Err)
    (hts : checkTimestamp now window r.headers = some e) :
    e.kind = ErrKind.notAcceptable
    ∧ (errorResp e).statusCode = 406
    ∧ Lambda.createRequestVerifier sha256 verify256 now window pubKey next r = errorResp e
    ∧ LambdaHTTP.createRequestVerifier md5 verify128 now window pubKey next r = errorResp e
    ∧ (∀ hs2 : Headers, getHeader hs2 keyTimestamp = getHeader r.headers keyTimestamp →
        Lambda.createRequestVerifier sha256 verify256 now window pubKey next
            { r with headers := hs2 } = errorResp e
        ∧ LambdaHTTP.createRequestVerifier md5 verify128 now window pubKey next
            { r with headers := hs2 } = errorResp e) := by
  have hkind := checkTimestamp_error_notAcceptable now window r.headers e hts
  refine ⟨hkind, by simp [errorResp, hkind, ErrKind.status], ?_, ?_, ?_⟩
  · simp [Lambda.createRequestVerifier, hts]
  · simp [LambdaHTTP.createRequestVerifier, hts]
  · intro hs2 hagree
    have hts2 : checkTimestamp now window hs2 = some e :=
      (checkTimestamp_congr now window hs2 r.headers hagree).trans hts
    constructor
    · simp [Lambda.createRequestVerifier, hts2]
    · simp [LambdaHTTP.createRequestVerifier, hts2]

/-- Closed instance of
`c5_freshness_rejection_independent_of_signature` at a request whose
timestamp header is an hour old with a five-minute window. -/
theorem c5_witness :
    Lambda.createRequestVerifier zeroHash256 (fun (_ : Unit) _ _ => true) 4600 300 ()
        sampleNext sampleRequest
      = errorResp { kind := .notAcceptable, msg := "timestamp out of range" } :=
  (c5_freshness_rejection_independent_of_signature zeroHash256 zeroHash128
    (fun _ _ _ => true) (fun _ _ _ => true) 4600 300 () sampleNext sampleRequest
    { kind := .notAcceptable, msg := "timestamp out of range" } rfl).2.2.1

/-- `BatchDelete` on the partial-deletion path: a successful backend call
confirming a nonzero number of deletions that leaves `remainingIds`
nonempty produces the enumeration error, with no waiter call. -/
theorem batchDelete_partial_eq (be : S3Bucket.Backend) (id0 : String)
    (rest deleted : List String)
    (hdel : be.deleteObjects (id0 :: rest) = .ok deleted)
    (h0 : deleted.length ≠ 0)
    (hpos : S3Bucket.remainingIds (id0 :: rest) deleted ≠ []) :
    S3Bucket.batchDelete be (id0 :: rest)
      = (.error (.someIdsNotDeleted (S3Bucket.remainingIds (id0 :: rest) deleted)), []) := by
  unfold S3Bucket.batchDelete
  rw [hdel]
  simp only [if_neg h0, if_pos hpos]

/-- `BatchDelete` on the zero-confirmed-deletions path: success, with no
waiter call. -/
theorem batchDelete_zero (be : S3Bucket.Backend) (id0 : String)
    (rest : List String)
    (hdel : be.deleteObjects (id0 :: rest) = .ok []) :
    S3Bucket.batchDelete be (id0 :: rest) = (.ok (), []) := by
  unfold S3Bucket.batchDelete
  rw [hdel]
  simp

/-- `BatchDelete` on the path that reaches the waiter: whatever the waiter
outcome, the only waiter call is for the first id, bounded by five
seconds. -/
theorem batchDelete_wait_trace (be : S3Bucket.Backend) (id0 : String)
    (rest deleted : List String)
    (hdel : be.deleteObjects (id0 :: rest) = .ok deleted)
    (h0 : deleted.length ≠ 0)
    (hrem : S3Bucket.remainingIds (id0 :: rest) deleted = []) :
    (S3Bucket.batchDelete be (id0 :: rest)).2 = [(id0, 5)] := by
  unfold S3Bucket.batchDelete
  rw [hdel]
  simp only [if_neg h0, hrem]
  simp only [ne_eq, not_true_eq_false, if_false]
  cases be.waitNotExists id0 5 <;> rfl

/-- For distinct ids and distinct confirmed keys drawn from them, the
remaining-id enumeration has exactly the ids not confirmed deleted, and
its size is the difference of the counts. -/
theorem remainingIds_spec (ids deleted : List String)
    (hnodup : ids.Nodup) (hdnodup : deleted.Nodup)
    (hsub : ∀ x ∈ deleted, x ∈ ids)
    (hne : deleted.length ≠ ids.length) :
    (∀ x, x ∈ S3Bucket.remainingIds ids deleted ↔ (x ∈ ids ∧ x ∉ deleted))
    ∧ (S3Bucket.remainingIds ids deleted).length = ids.length - deleted.length := by
  unfold S3Bucket.remainingIds
  rw [if_pos hne, List.dedup_eq_self.mpr hnodup]
  constructor
  · intro x
    simp [List.mem_filter]
  · have hsplit : ids.length = (ids.filter (fun x => deleted.contains x)).length
        + (ids.filter (fun x => !deleted.contains x)).length :=
      List.length_eq_length_filter_add _
    have hperm : List.Perm (ids.filter (fun x => deleted.contains x)) deleted := by
      rw [List.perm_ext_iff_of_nodup (hnodup.filter _) hdnodup]
      intro a
      simp [List.mem_filter]
      exact fun h => hsub a h
    have hlen : (ids.filter (fun x => deleted.contains x)).length = deleted.length :=
      hperm.length_eq
    omega

/-- **C6** counterexample: one id, a successful `DeleteObjects` call that
confirms zero deletions (M = 0 < N = 1) — `BatchDelete` returns success
instead of an error naming the undeleted id, because of the
`len(output.Deleted) == 0` early return. -/
theorem c6_counterexample :
    S3Bucket.batchDelete
      { deleteObjects := fun _ => .ok [], waitNotExists := fun _ _ => .ok () }
      ["a"] = (.ok (), []) := rfl

/-- **C6** (amended): over a set of N distinct ids, when the backend call
succeeds confirming deletion of exactly M of them with 1 ≤ M < N,
`BatchDelete` returns an error enumerating exactly the N − M ids not
confirmed deleted. -/
theorem c6_amended_partial_delete_enumerates (be : S3Bucket.Backend)
    (ids deleted : List String)
    (hnodup : ids.Nodup) (hdnodup : deleted.Nodup)
    (hsub : ∀ x ∈ deleted, x ∈ ids)
    (hdel : be.deleteObjects ids = .ok deleted)
    (hM : 1 ≤ deleted.length) (hMN : deleted.length < ids.length) :
    S3Bucket.batchDelete be ids
      = (.error (.someIdsNotDeleted (S3Bucket.remainingIds ids deleted)), [])
    ∧ (S3Bucket.remainingIds ids deleted).length = ids.length - deleted.length
    ∧ (∀ x, x ∈ S3Bucket.remainingIds ids deleted ↔ (x ∈ ids ∧ x ∉ deleted)) := by
  have hnil : ids ≠ [] := by
    intro h
    rw [h] at hMN
    simp at hMN
  obtain ⟨id0, rest, rfl⟩ := List.exists_cons_of_ne_nil hnil
  have hne : deleted.length ≠ (id0 :: rest).length := Nat.ne_of_lt hMN
  have hspec := remainingIds_spec (id0 :: rest) deleted hnodup hdnodup hsub hne
  have hpos : S3Bucket.remainingIds (id0 :: rest) deleted ≠ [] := by
    intro h
    have h2 := hspec.2
    rw [h] at h2
    simp only [List.length_nil, List.length_cons] at h2 hMN
    omega
  exact ⟨batchDelete_partial_eq be id0 rest deleted hdel (by omega) hpos,
    hspec.2, hspec.1⟩

/-- Closed instance of `c6_amended_partial_delete_enumerates`: of the two
ids `a`, `b` the backend confirms only `a`; the error enumerates `b`. -/
theorem c6_witness :
    S3Bucket.batchDelete
      { deleteObjects := fun _ => .ok ["a"], waitNotExists := fun _ _ => .ok () }
      ["a", "b"]
      = (.error (.someIdsNotDeleted
          (S3Bucket.remainingIds ["a", "b"] ["a"])), []) :=
  (c6_amended_partial_delete_enumerates
    { deleteObjects := fun _ => .ok ["a"], waitNotExists := fun _ _ => .ok () }
    ["a", "b"] ["a"] (by decide) (by decide) (by decide) rfl
    (by decide) (by decide)).1

/-- **C10**: on a successful `DeleteObjects` call, when zero deletions are
confirmed `BatchDelete` returns success immediately with no waiter call at
all; and when the confirmed count equals the submitted count (in
particular when every submitted id is confirmed deleted) the one and only
waiter call is for the first id `ids[0]`, with the five-second bound —
never for any other id. -/
theorem c10_wait_only_for_first_id (be : S3Bucket.Backend) (id0 : String)
    (rest deleted : List String)
    (hdel : be.deleteObjects (id0 :: rest) = .ok deleted) :
    (deleted = [] → S3Bucket.batchDelete be (id0 :: rest) = (.ok (), []))
    ∧ (deleted.length = (id0 :: rest).length →
        (S3Bucket.batchDelete be (id0 :: rest)).2 = [(id0, 5)]) := by
  constructor
  · rintro rfl
    exact batchDelete_zero be id0 rest hdel
  · intro hlen
    have h0 : deleted.length ≠ 0 := by
      rw [hlen]
      simp
    have hrem : S3Bucket.remainingIds (id0 :: rest) deleted = [] := by
      unfold S3Bucket.remainingIds
      rw [if_neg (by omega)]
    exact batchDelete_wait_trace be id0 rest deleted hdel h0 hrem

/-- Closed instance of `c10_wait_only_for_first_id`: both ids confirmed
deleted; the single waiter call is for the first id with the five-second
bound. -/
theorem c10_witness :
    (S3Bucket.batchDelete
      { deleteObjects := fun _ => .ok ["a", "b"], waitNotExists := fun _ _ => .ok () }
      ["a", "b"]).2 = [("a", 5)] :=
  (c10_wait_only_for_first_id
    { deleteObjects := fun _ => .ok ["a", "b"], waitNotExists := fun _ _ => .ok () }
    "a" ["b"] ["a", "b"] rfl).2 rfl

end Awskit
